import Mathlib

/-!
# Shallow embedding of the `facehugger` tool

Embedding of `src/facehugger/models.py` and `src/facehugger/facehugger.py`:
the manifest schema and its pydantic validation, the manifest loader, the
`hf download` command formatter, the cache-listing helper, the verifier, and
the `main` entry point modelled as a pure function from parsed arguments and
an environment oracle to the sequence of observable events plus an exit
status.

External collaborators (pydantic, PyYAML, `subprocess`, `huggingface_hub`,
`difflib`) are modelled by explicit data: a parsed-YAML value type, oracles
for subprocess results and verification outcomes, and (for `difflib`) a
unified-diff function modelled from the specification.
-/

namespace Facehugger

/-- Single-quote character as a string, for log-message literals. -/
def sq : String := (Char.ofNat 39).toString

/-! ## Parsed YAML values (model of the output of `yaml.safe_load`) -/

/-- A parsed YAML document, as handed to pydantic validation. -/
inductive Yaml where
  | null : Yaml
  | str : String → Yaml
  | int : Int → Yaml
  | bool : Bool → Yaml
  | list : List Yaml → Yaml
  | map : List (String × Yaml) → Yaml

/-- Python truthiness test of a parsed YAML value, used by the
`yaml.safe_load(f) or {}` expression in `load_manifest`. -/
def Yaml.falsy : Yaml → Bool
  | .null => true
  | .str s => s == ""
  | .int n => n == 0
  | .bool b => b == false
  | .list l => l.isEmpty
  | .map m => m.isEmpty

/-- First value bound to key `k` in a YAML mapping (YAML keys are unique). -/
def ymLookup (kvs : List (String × Yaml)) (k : String) : Option Yaml :=
  (kvs.find? (fun kv => kv.1 == k)).map (fun kv => kv.2)

/-! ## Manifest schema (`src/facehugger/models.py`) -/

/-- Shape of the `Union[str, List[str]]` fields `include` and `exclude`. -/
inductive StrOrList where
  | single : String → StrOrList
  | many : List String → StrOrList
  deriving DecidableEq, Repr

/-- Python class `ModelConfig`: configuration for a single model in the
manifest. `repo : str` (required), `ref : Optional[str] = "main"`,
`include` and `exclude : Optional[Union[str, List[str]]] = None`. -/
structure ModelConfig where
  repo : String
  ref : Option String := some ("main")
  «include» : Option StrOrList := none
  exclude : Option StrOrList := none
  deriving DecidableEq, Repr

/-- Python class `FacehuggerManifest`: main manifest file structure,
`models : List[ModelConfig]`. -/
structure FacehuggerManifest where
  models : List ModelConfig
  deriving DecidableEq, Repr

/-- pydantic validation of a plain string inside a `List[str]` field. -/
def yamlStr : Yaml → Option String
  | .str s => some s
  | _ => none

/-- pydantic validation of a `Union[str, List[str]]` field value. -/
def validateStrOrList : Yaml → Option StrOrList
  | .str s => some (.single s)
  | .list ys => (ys.mapM yamlStr).map StrOrList.many
  | _ => none

/-- pydantic validation of an `Optional[Union[str, List[str]]] = None` field:
an absent key or an explicit null gives `none`. -/
def validateOptStrOrList (kvs : List (String × Yaml)) (k : String) :
    Option (Option StrOrList) :=
  match ymLookup kvs k with
  | Option.none => some none
  | some .null => some none
  | some y => (validateStrOrList y).map some

/-- pydantic validation of the `ref : Optional[str] = "main"` field: the
default applies when the key is absent; an explicit null gives `None`. -/
def validateRef (kvs : List (String × Yaml)) : Option (Option String) :=
  match ymLookup kvs ("ref") with
  | Option.none => some (some ("main"))
  | some .null => some none
  | some (.str s) => some (some s)
  | some _ => none

/-- pydantic validation of one manifest entry against `ModelConfig`: `repo`
must be present and a string; `ref` defaults to `"main"` when the key is
absent; `include` and `exclude` default to `None`. -/
def ModelConfig.model_validate : Yaml → Option ModelConfig
  | .map kvs =>
    match ymLookup kvs ("repo") with
    | some (.str r) =>
      match validateRef kvs, validateOptStrOrList kvs ("include"),
            validateOptStrOrList kvs ("exclude") with
      | some rf, some inc, some exc =>
        some { repo := r, ref := rf, «include» := inc, exclude := exc }
      | _, _, _ => none
    | _ => none
  | _ => none

/-- pydantic validation of the `models` list, entry by entry, in order. -/
def validateModels : List Yaml → Option (List ModelConfig)
  | [] => some []
  | y :: ys =>
    match ModelConfig.model_validate y, validateModels ys with
    | some c, some cs => some (c :: cs)
    | _, _ => none

/-- pydantic validation of a whole document against `FacehuggerManifest`:
the `models` key must be present and bound to a list of valid entries. -/
def FacehuggerManifest.model_validate (y : Yaml) : Option FacehuggerManifest :=
  match y with
  | .map kvs =>
    match ymLookup kvs ("models") with
    | some (.list ys) => (validateModels ys).map (fun cs => { models := cs })
    | _ => none
  | _ => none

/-! ## Manifest loader (`load_manifest`) -/

/-- What the filesystem and the YAML parser give `load_manifest` for the
requested path: no file, a file PyYAML cannot parse, or a parsed document. -/
inductive ManifestFile where
  | notFound : ManifestFile
  | unparsable : ManifestFile
  | parsed : Yaml → ManifestFile

/-- Which of the three `sys.exit` messages of `load_manifest` fired (the
appended exception text of the parse or validation error is elided). -/
inductive LoadError where
  | fileNotFound : LoadError
  | parseFailure : LoadError
  | validationFailure : LoadError
  deriving DecidableEq, Repr

/-- Function `load_manifest`: a missing file and a parse failure exit; the
expression `yaml.safe_load(f) or {}` replaces a falsy document by the empty
mapping; a validation failure exits; otherwise the validated manifest is
returned. `sys.exit(message)` terminates the process with exit code 1. -/
def load_manifest (file : ManifestFile) : Except LoadError FacehuggerManifest :=
  match file with
  | .notFound => .error .fileNotFound
  | .unparsable => .error .parseFailure
  | .parsed v =>
    let data := if v.falsy then Yaml.map [] else v
    match FacehuggerManifest.model_validate data with
    | some m => .ok m
    | none => .error .validationFailure

/-! ## Command formatter (`build_hf_command`) -/

/-- Tokens contributed by an `include` or `exclude` value, following the
Python truthiness test `if include:` (an absent value, an empty string and
an empty list contribute nothing) and the `isinstance(…, list)` split. -/
def patternTokens (flag : String) (v : Option StrOrList) : List String :=
  match v with
  | none => []
  | some (.single s) => if s == "" then [] else [flag, s]
  | some (.many l) =>
    if l.isEmpty then [] else l.flatMap (fun pat => [flag, pat])

/-- Function `build_hf_command`: starts from `["hf", "download", repo]`,
replaces the last token by `repo@ref` when `ref` is truthy, appends the
include and exclude token pairs, and joins the tokens with single spaces. -/
def build_hf_command (repo : String) (ref : Option String)
    (inc exc : Option StrOrList) : String :=
  let parts : List String := ["hf", "download", repo]
  let parts : List String :=
    match ref with
    | some r => if r == "" then parts else parts.dropLast ++ [repo ++ "@" ++ r]
    | none => parts
  let parts := parts ++ patternTokens ("--include") inc
  let parts := parts ++ patternTokens ("--exclude") exc
  String.intercalate (" ") parts

/-! ## Observable events of a run -/

/-- Logging severity of a `logging.…` call. -/
inductive LogLevel where
  | info | warning | error
  deriving DecidableEq, Repr

/-- One observable action of the program: stdout printing, logging, the
manifest-loading step, the `hf cache ls` subprocess, the external
`snapshot_download` call and the external `verify_repo_checksums` call.
`renderedCommand cmd` stands for the specific log line
`logging.info(f"Equivalent command: ...")` that displays the rendered
equivalent `hf download` command `cmd` for one manifest entry. -/
inductive Event where
  | printed (s : String)
  | logged (lvl : LogLevel) (msg : String)
  | renderedCommand (cmd : String)
  | loadedManifest
  | ranCacheLs
  | downloaded (repo : String) (ref : Option String)
      (inc exc : Option StrOrList)
  | verifyCall (repo : String) (repo_type : Option String) (ref : Option String)
  deriving DecidableEq, Repr

/-! ## Cache inspector (`get_cache_listing`) -/

/-- Result of a completed subprocess (exit code and captured stdout). -/
structure SubprocessResult where
  returncode : Int
  stdout : String
  deriving DecidableEq, Repr

/-- Python `str.splitlines()` restricted to `"\n"` terminators: the captured
stdout of `hf cache ls` is newline-delimited text. -/
def pySplitlines (s : String) : List String :=
  if s == "" then []
  else
    let parts := s.splitOn ("\n")
    if s.endsWith ("\n") then parts.dropLast else parts

/-- Function `get_cache_listing`: runs `hf cache ls` (`check=True` raises
`CalledProcessError` exactly on a non-zero exit code, which is caught); on
success the captured stdout is split into lines, on failure an error is
logged and the empty list returned. -/
def get_cache_listing (r : SubprocessResult) : List Event × List String :=
  if r.returncode == 0 then
    ([.ranCacheLs], pySplitlines r.stdout)
  else
    ([.ranCacheLs,
      .logged .error ("hf cache ls failed with exit code " ++
        toString r.returncode)], [])

/-! ## Download orchestrator (`download_model`) -/

/-- Suffix `{f'@{ref}' if ref else ''}` used in several log lines. -/
def refSuffix (ref : Option String) : String :=
  match ref with
  | some r => if r == "" then "" else "@" ++ r
  | none => ""

/-- Python `str()` of an `Optional[str]` inside an f-string (`None` prints
as `"None"`). -/
def pyOptStr : Option String → String
  | none => "None"
  | some s => s

/-- Whether the external `snapshot_download` call returns or raises. -/
inductive DownloadOutcome where
  | success | failure
  deriving DecidableEq, Repr

/-- Function `download_model`: logs, calls `snapshot_download`, and prints a
fresh newline afterwards; a raised download error is not caught (the `Bool`
component reports that the run aborts here). -/
def download_model (repo : String) (ref : Option String)
    (inc exc : Option StrOrList) (outcome : DownloadOutcome) :
    List Event × Bool :=
  let logEv := Event.logged .info ("Downloading repo " ++ repo ++ refSuffix ref)
  match outcome with
  | .success => ([logEv, .downloaded repo ref inc exc, .printed ("")], false)
  | .failure => ([logEv, .downloaded repo ref inc exc], true)

/-! ## Verifier (`verify_cache`) -/

/-- One checksum mismatch reported by `verify_repo_checksums`. -/
structure Mismatch where
  path : String
  expected : String
  actual : String
  algorithm : String
  deriving DecidableEq, Repr

/-- Result object of a completed `verify_repo_checksums` call. -/
structure VerificationResult where
  checked_count : Nat
  verified_path : String
  mismatches : List Mismatch
  deriving DecidableEq, Repr

/-- The outcomes of the external `verify_repo_checksums` call that
`verify_cache` handles: the two not-found errors it catches, or a result. -/
inductive VerifyOutcome where
  | repoNotFound (msg : String)
  | revisionNotFound (msg : String)
  | completed (res : VerificationResult)
  deriving DecidableEq, Repr

/-- Error line logged for one mismatch. -/
def mismatchLog (m : Mismatch) : Event :=
  .logged .error ("  - " ++ m.path ++ ": expected " ++ m.expected ++
    " (" ++ m.algorithm ++ "), got " ++ m.actual)

/-- Function `verify_cache`: logs the equivalent `hf cache verify` command,
calls `verify_repo_checksums`, logs and returns on the two caught not-found
errors, logs every mismatch when any is present, and otherwise logs the
success summary. It always returns a plain event list: no handled outcome
aborts the run. `verifyPreamble` is the part before the outcome branch:
the log of the equivalent `hf cache verify` command (with `--revision`
when `ref` is truthy) and the `verify_repo_checksums` call itself. -/
def verifyPreamble (repo : String) (repo_type : Option String)
    (ref : Option String) : List Event :=
  let cmdTokens := ["hf", "cache", "verify", repo] ++
    (match ref with
     | some r => if r == "" then [] else ["--revision", r]
     | none => [])
  let cmd := String.intercalate (" ") cmdTokens
  [.logged .info ("Verifying repo " ++ repo ++ refSuffix ref ++
      ", equivalent to: `" ++ cmd ++ "`"),
   .verifyCall repo repo_type ref]

def verify_cache (repo : String) (repo_type : Option String)
    (ref : Option String) (outcome : VerifyOutcome) : List Event :=
  verifyPreamble repo repo_type ref ++
    match outcome with
    | .repoNotFound m =>
      [.logged .error ("Repository " ++ repo ++ " not found: " ++ m)]
    | .revisionNotFound m =>
      [.logged .error ("Repository " ++ repo ++ " revision " ++ pyOptStr ref ++
        " not found: " ++ m)]
    | .completed res =>
      if !res.mismatches.isEmpty then
        .logged .error ("❌ Repo " ++ repo ++
            " checksum verification failed for the following file(s)")
          :: res.mismatches.map mismatchLog
      else
        [.logged .info ("✅ Verified " ++ toString res.checked_count ++
          " file(s) for " ++ sq ++ repo ++ sq ++ " (" ++ pyOptStr repo_type ++
          ") in " ++ res.verified_path)]

/-! ## Cache diff

The entry point computes `"".join(difflib.unified_diff(initial, final,
fromfile="initial", tofile="final", lineterm=""))` and renders the result
only when it is non-empty. `difflib` is external standard-library code that
is not part of this repository, so the diff is modelled from the
specification's contract for the Cache Inspector. -/

/-- Tag of one diff line, for colourised rendering. -/
inductive Tag where
  | added | removed | context
  deriving DecidableEq, Repr

/-- One tagged line of a computed diff. -/
structure TaggedLine where
  tag : Tag
  text : String
  deriving DecidableEq, Repr

/-- Number of non-context (reportable change) lines of a tagged diff. -/
def changeCount (tl : List TaggedLine) : Nat :=
  (tl.filter (fun t => !(t.tag == Tag.context))).length

/-- Modelled from the spec: the line-based diff underlying
`difflib.unified_diff`, which is external standard-library code not under
`src/`. Per §4.5, `diff(before, after)` computes a standard line-based diff
whose lines are tagged `added`/`removed`/`context`; this model chooses, at
each disagreement, the continuation with fewer reportable change lines.
The first argument is recursion fuel; each recursive call shrinks the
combined input length by one, so `a.length + b.length` fuel is exact. -/
def diffLinesF : Nat → List String → List String → List TaggedLine
  | _, [], ys => ys.map (fun y => ⟨Tag.added, y⟩)
  | _, x :: xs, [] => (x :: xs).map (fun z => ⟨Tag.removed, z⟩)
  | 0, _ :: _, _ :: _ => []
  | n + 1, x :: xs, y :: ys =>
    if x == y then ⟨Tag.context, x⟩ :: diffLinesF n xs ys
    else
      let d1 := ⟨Tag.removed, x⟩ :: diffLinesF n xs (y :: ys)
      let d2 := ⟨Tag.added, y⟩ :: diffLinesF n (x :: xs) ys
      if changeCount d2 < changeCount d1 then d2 else d1

/-- The modelled line-based diff of two listings (fuelled exactly). -/
def diffLines (a b : List String) : List TaggedLine :=
  diffLinesF (a.length + b.length) a b

/-- Rendering of one tagged line in unified style (`" "`, `"+"`, `"-"`
prefix). -/
def renderTagged (t : TaggedLine) : String :=
  match t.tag with
  | .context => " " ++ t.text
  | .added => "+" ++ t.text
  | .removed => "-" ++ t.text

/-- Modelled from the spec: `difflib.unified_diff(a, b, fromfile="initial",
tofile="final", lineterm="")`, external standard-library code not under
`src/`. Per §4.5 an empty diff means no reportable line, so nothing (not
even the two header lines) is emitted when every line is context; hunk
headers and context trimming are elided. -/
def unified_diff (a b : List String) : List String :=
  let tl := diffLines a b
  if tl.all (fun t => t.tag == Tag.context) then []
  else ["--- initial", "+++ final"] ++ tl.map renderTagged

/-- Colourised rendering of one diff line in the entry point: green for
`+` lines (but not the `+++` header), red for `-` lines (but not the `---`
header), plain otherwise. -/
def colourLine (line : String) : Event :=
  if line.startsWith ("+") && !line.startsWith ("+++") then
    .logged .info ("\x1b[32m" ++ line ++ "\x1b[0m")
  else if line.startsWith ("-") && !line.startsWith ("---") then
    .logged .info ("\x1b[31m" ++ line ++ "\x1b[0m")
  else
    .logged .info line

/-- The diff section at the end of `main`: joins the unified diff into one
string and, only when that string is non-empty, logs the header and the
colourised lines. -/
def diffSectionEvents (initialCache finalCache : List String) : List Event :=
  let diff := String.join (unified_diff initialCache finalCache)
  if diff == "" then []
  else
    .logged .info ("\nCache changes (colourised):") ::
      (pySplitlines diff).map colourLine

/-! ## Entry point (`main`) -/

/-- The command-line arguments after `argparse` has accepted them. -/
structure Args where
  manifest : String := "facehugger.yaml"
  dry_run : Bool := false
  version : Bool := false
  deriving DecidableEq, Repr

/-- Environment oracle for one run: the package version lookup (`none`
models `PackageNotFoundError`), the manifest file, and the results of the
successive `hf cache ls`, `snapshot_download` and `verify_repo_checksums`
invocations. -/
structure World where
  pkgVersion : Option String
  file : ManifestFile
  cacheLs : Nat → SubprocessResult
  download : Nat → DownloadOutcome
  verify : Nat → VerifyOutcome

/-- Python `repr` of an optional string (`None` or a quoted string). -/
def pyReprOptStr : Option String → String
  | none => "None"
  | some s => sq ++ s ++ sq

/-- Python `repr` of an optional string-or-list field value. -/
def pyReprOptSOL : Option StrOrList → String
  | none => "None"
  | some (.single s) => sq ++ s ++ sq
  | some (.many l) =>
    "[" ++ String.intercalate (", ") (l.map (fun s => sq ++ s ++ sq)) ++ "]"

/-- The `%s` rendering of a pydantic `ModelConfig` in the skip warning. -/
def modelConfigRepr (e : ModelConfig) : String :=
  "repo=" ++ sq ++ e.repo ++ sq ++ " ref=" ++ pyReprOptStr e.ref ++
    " include=" ++ pyReprOptSOL e.«include» ++
    " exclude=" ++ pyReprOptSOL e.exclude

/-- One iteration of the entry loop of `main` over a manifest entry, where
`k` counts the downloads performed so far (indexing the oracle). An entry
with a falsy `repo` is skipped with a warning; otherwise the equivalent
command is logged and, unless `--dry-run` is set, the entry is downloaded
and verified. The `Bool` reports an uncaught download failure. -/
def runEntry (dryRun : Bool) (w : World) (k : Nat) (e : ModelConfig) :
    List Event × Nat × Bool :=
  if e.repo == "" then
    ([.logged .warning ("Skipping entry without " ++ sq ++ "repo" ++ sq ++
      " key: " ++ modelConfigRepr e)], k, false)
  else
    let render := Event.renderedCommand
      (build_hf_command e.repo e.ref e.«include» e.exclude)
    if dryRun then ([render], k, false)
    else
      let dl := download_model e.repo e.ref e.«include» e.exclude (w.download k)
      if dl.2 then (render :: dl.1, k + 1, true)
      else
        (render :: dl.1 ++ verify_cache e.repo none e.ref (w.verify k),
         k + 1, false)

/-- The entry loop of `main`, threading the download counter; an uncaught
download failure stops the loop and aborts the run. -/
def runEntries (dryRun : Bool) (w : World) :
    List ModelConfig → Nat → List Event × Bool
  | [], _ => ([], false)
  | e :: es, k =>
    let step := runEntry dryRun w k e
    if step.2.2 then (step.1, true)
    else
      let rest := runEntries dryRun w es step.2.1
      (step.1 ++ rest.1, rest.2)

/-- How the process ends: normal return (exit code 0), `sys.exit` with a
message (exit code 1), or an uncaught exception (non-zero exit). -/
inductive ExitStatus where
  | ok
  | sysExit (e : LoadError)
  | raised
  deriving DecidableEq, Repr

/-- Numeric process exit code of an `ExitStatus`. -/
def exitCode : ExitStatus → Nat
  | .ok => 0
  | .sysExit _ => 1
  | .raised => 1

/-- One cache-state section of `main`: run `hf cache ls`, log the given
heading and then every captured line; also return the captured listing. -/
def cacheStateEvents (label : String) (r : SubprocessResult) :
    List Event × List String :=
  let ls := get_cache_listing r
  (ls.1 ++ [Event.logged .info label] ++
    ls.2.map (fun l => Event.logged .info l), ls.2)

/-- Function `main` after argument parsing: the `--version` branch prints
and returns before anything else; the manifest is loaded (fatally on error);
with an empty `models` list a notice is logged and the initial capture
skipped, the entries are iterated otherwise; the final cache capture and the
diff section always follow a non-aborted iteration. -/
def main (args : Args) (w : World) : List Event × ExitStatus :=
  if args.version then
    ([.printed (w.pkgVersion.getD ("0.0.0"))], .ok)
  else
    match load_manifest w.file with
    | .error e => ([.loadedManifest], .sysExit e)
    | .ok m =>
      let models := m.models
      if models.isEmpty then
        let fin := cacheStateEvents ("\nFinal cache state:") (w.cacheLs 0)
        (Event.loadedManifest ::
            Event.logged .info ("No models defined in " ++ args.manifest) ::
            fin.1 ++ diffSectionEvents [] fin.2,
         .ok)
      else
        let ini := cacheStateEvents ("\nInitial cache state:") (w.cacheLs 0)
        let run := runEntries args.dry_run w models 0
        if run.2 then
          (Event.loadedManifest :: ini.1 ++ run.1, .raised)
        else
          let fin := cacheStateEvents ("\nFinal cache state:") (w.cacheLs 1)
          (Event.loadedManifest :: ini.1 ++ run.1 ++ fin.1 ++
              diffSectionEvents ini.2 fin.2,
           .ok)

/-! ## Trace observations and concrete run environments -/

/-- Number of rendered equivalent-command log lines in a trace. -/
def renderedCount (l : List Event) : Nat :=
  l.countP (fun e => match e with
    | .renderedCommand _ => true | _ => false)

/-- Number of `snapshot_download` invocations in a trace. -/
def downloadCount (l : List Event) : Nat :=
  l.countP (fun e => match e with
    | .downloaded _ _ _ _ => true | _ => false)

/-- Number of `verify_repo_checksums` invocations in a trace. -/
def verifyCount (l : List Event) : Nat :=
  l.countP (fun e => match e with
    | .verifyCall _ _ _ => true | _ => false)

/-- Benign environment around a given manifest file: version metadata is
present, every `hf cache ls` exits 0 with empty output, every download
succeeds and every verification completes without mismatches. -/
def mkWorld (f : ManifestFile) : World where
  pkgVersion := some ("1.2.3")
  file := f
  cacheLs := fun _ => ⟨0, ""⟩
  download := fun _ => .success
  verify := fun _ => .completed ⟨1, "/cache/path", []⟩

/-- Parsed manifest document with the given entries under `models`. -/
def manifestDoc (entries : List Yaml) : ManifestFile :=
  .parsed (Yaml.map [("models", Yaml.list entries)])

/-- Events that are pure output (stdout prints and log lines): no external
operation is performed by them. -/
def logOnlyEvent : Event → Bool
  | .printed _ => true
  | .logged _ _ => true
  | _ => false

/-! ## Claim-side rendering of the equivalent command

Independent rendering of the `hf download` command line following the
sentence of the specification, for comparison with `build_hf_command`. -/

/-- Claim-side repo token: the repo name, with `@ref` appended when `ref`
is given — amended to require a non-empty `ref` string. -/
def specRepoToken (repo : String) (ref : Option String) : String :=
  match ref with
  | some r => if r == "" then repo else repo ++ "@" ++ r
  | none => repo

/-- Claim-side pattern sequence of an `include`/`exclude` value — amended
so that a single empty-string pattern and an absent value contribute no
pattern, while a list contributes its elements in order. -/
def specPatterns : Option StrOrList → List String
  | none => []
  | some (.single s) => if s == "" then [] else [s]
  | some (.many l) => l

/-- Claim-side command string: `hf download <repo-token>`, one
`--include <p>` pair per include pattern in order, then one
`--exclude <p>` pair per exclude pattern in order, all tokens joined by
single spaces. -/
def specCommand (repo : String) (ref : Option String)
    (inc exc : Option StrOrList) : String :=
  String.intercalate (" ")
    (["hf", "download", specRepoToken repo ref] ++
      (specPatterns inc).flatMap (fun p => ["--include", p]) ++
      (specPatterns exc).flatMap (fun p => ["--exclude", p]))

/-- Events that perform no download, no verification and no command
rendering (prints, log lines, the load marker and the `hf cache ls`
subprocess). -/
def passiveEvent : Event → Bool
  | .renderedCommand _ => false
  | .downloaded _ _ _ _ => false
  | .verifyCall _ _ _ => false
  | _ => true

/-- Arguments of a plain `facehugger` run (no flags). -/
def argsPlain : Args := ⟨"facehugger.yaml", false, false⟩

/-- Arguments of a `facehugger --dry-run` run. -/
def argsDry : Args := ⟨"facehugger.yaml", true, false⟩

/-- Benign environment whose manifest parses to `models: []`. -/
def emptyModelsWorld : World := mkWorld (manifestDoc [])

/-- Benign environment whose manifest has one entry with an empty `repo`
string. -/
def emptyRepoOnlyWorld : World :=
  mkWorld (manifestDoc [Yaml.map [("repo", Yaml.str (""))]])

/-- Benign environment whose manifest has an empty-`repo` entry followed by
a well-formed entry. -/
def emptyRepoThenGoodWorld : World :=
  mkWorld (manifestDoc
    [Yaml.map [("repo", Yaml.str (""))],
     Yaml.map [("repo", Yaml.str ("owner/model"))]])

/-- A concrete two-entry manifest document, mirroring the repository's
load-manifest test: the first entry sets every field, the second only
`repo` and `ref`. -/
def twoEntryDoc : List Yaml :=
  [Yaml.map [("repo", Yaml.str ("test/model1")), ("ref", Yaml.str ("main")),
    ("include", Yaml.str ("*.gguf")), ("exclude", Yaml.str ("*.ckpt"))],
   Yaml.map [("repo", Yaml.str ("test/model2")), ("ref", Yaml.str ("v1.0"))]]

/-- The validated manifest of `twoEntryDoc`. -/
def twoEntryManifest : FacehuggerManifest :=
  { models :=
      [{ repo := "test/model1", ref := some ("main"),
         «include» := some (.single ("*.gguf")),
         exclude := some (.single ("*.ckpt")) },
       { repo := "test/model2", ref := some ("v1.0"), «include» := none,
         exclude := none }] }

/-! ## Helper lemmas -/

theorem model_validate_no_models {kvs : List (String × Yaml)}
    (h : ymLookup kvs ("models") = none) :
    FacehuggerManifest.model_validate (Yaml.map kvs) = none := by
  simp only [FacehuggerManifest.model_validate]
  rw [h]

theorem validateModels_length {ys : List Yaml} {cs : List ModelConfig}
    (h : validateModels ys = some cs) : cs.length = ys.length := by
  induction ys generalizing cs with
  | nil =>
    unfold validateModels at h
    cases h
    rfl
  | cons y ys ih =>
    unfold validateModels at h
    cases hv : ModelConfig.model_validate y <;> rw [hv] at h
    · simp at h
    · cases hr : validateModels ys <;> rw [hr] at h
      · simp at h
      · simp only [Option.some.injEq] at h
        subst h
        simp [ih hr]

theorem validateModels_get {ys : List Yaml} {cs : List ModelConfig}
    (h : validateModels ys = some cs) :
    ∀ i (hy : i < ys.length) (hc : i < cs.length),
      ModelConfig.model_validate (ys.get ⟨i, hy⟩) = some (cs.get ⟨i, hc⟩) := by
  induction ys generalizing cs with
  | nil => intro i hy _; exact absurd hy (Nat.not_lt_zero i)
  | cons y ys ih =>
    unfold validateModels at h
    cases hv : ModelConfig.model_validate y <;> rw [hv] at h
    · simp at h
    · cases hr : validateModels ys <;> rw [hr] at h
      · simp at h
      · simp only [Option.some.injEq] at h
        subst h
        intro i hy hc
        cases i with
        | zero => simpa using hv
        | succ n =>
          exact ih hr n (Nat.lt_of_succ_lt_succ hy) (Nat.lt_of_succ_lt_succ hc)

theorem validateRef_default {kvs : List (String × Yaml)}
    (hr : ymLookup kvs ("ref") = none) :
    validateRef kvs = some (some ("main")) := by
  unfold validateRef
  rw [hr]

theorem model_validate_ref_default {kvs : List (String × Yaml)}
    {c : ModelConfig} (h : ModelConfig.model_validate (Yaml.map kvs) = some c)
    (hr : ymLookup kvs ("ref") = none) : c.ref = some ("main") := by
  simp only [ModelConfig.model_validate] at h
  rw [validateRef_default hr] at h
  cases hrepo : ymLookup kvs ("repo") <;> rw [hrepo] at h
  · simp at h
  · case some v =>
    cases v <;> try simp at h
    case str r =>
      cases hinc : validateOptStrOrList kvs ("include") <;> rw [hinc] at h
      · simp at h
      · cases hexc : validateOptStrOrList kvs ("exclude") <;> rw [hexc] at h
        · simp at h
        · simp only [Option.some.injEq] at h
          rw [← h]

theorem diffLinesF_self :
    ∀ (n : Nat) (L : List String), L.length ≤ n →
      diffLinesF n L L = L.map (fun s => ⟨Tag.context, s⟩) := by
  intro n
  induction n with
  | zero =>
    intro L h
    cases L with
    | nil => rfl
    | cons x xs => exact absurd h (by simp)
  | succ n ih =>
    intro L h
    cases L with
    | nil => rfl
    | cons x xs =>
      unfold diffLinesF
      simp [ih xs (Nat.le_of_succ_le_succ (by simpa using h))]

theorem diffLines_self (L : List String) :
    diffLines L L = L.map (fun s => ⟨Tag.context, s⟩) := by
  unfold diffLines
  exact diffLinesF_self _ L (by omega)

theorem unified_diff_self (L : List String) : unified_diff L L = [] := by
  simp [unified_diff, diffLines_self, List.all_map, Function.comp]

theorem diffSectionEvents_self (L : List String) :
    diffSectionEvents L L = [] := by
  simp [diffSectionEvents, unified_diff_self, String.join]

theorem patternTokens_eq_spec (flag : String) (v : Option StrOrList) :
    patternTokens flag v =
      (specPatterns v).flatMap (fun p => [flag, p]) := by
  cases v with
  | none => rfl
  | some sol =>
    cases sol with
    | single s => by_cases h : s == "" <;> simp [patternTokens, specPatterns, h]
    | many l => cases l <;> simp [patternTokens, specPatterns]

theorem build_hf_command_eq_spec (repo : String) (ref : Option String)
    (inc exc : Option StrOrList) :
    build_hf_command repo ref inc exc = specCommand repo ref inc exc := by
  unfold build_hf_command specCommand
  rw [patternTokens_eq_spec, patternTokens_eq_spec]
  cases ref with
  | none => rfl
  | some r => by_cases h : r == "" <;> simp [specRepoToken, h]

/-! ## Claim theorems -/

/-- C3 counterexample: with `ref` given as the empty string, the rendered
command omits the `@<ref>` suffix that the claim mandates for every given
`ref`. -/
theorem C3_counterexample :
    build_hf_command ("owner/model-repo") (some ("")) none none =
      "hf download owner/model-repo" ∧
    "hf download owner/model-repo" ≠ "hf download owner/model-repo@" := by
  exact ⟨rfl, by decide⟩

/-- C3 (amended): the command formatter returns exactly
`hf download <repo>`, with `@<ref>` appended to the repo token when `ref`
is given and non-empty, followed by one `--include <pattern>` pair per
include pattern in given order, then one `--exclude <pattern>` pair per
exclude pattern in given order, all tokens joined by single spaces — where
a single pattern that is the empty string contributes no pair (Python
truthiness); in particular the claim's example renders as stated. -/
theorem C3_build_hf_command_spec :
    (∀ repo ref inc exc,
      build_hf_command repo ref inc exc = specCommand repo ref inc exc) ∧
    build_hf_command ("owner/model-repo") (some ("main"))
        (some (.many ["*.gguf", "*.safetensors"])) none =
      "hf download owner/model-repo@main --include *.gguf --include *.safetensors" := by
  exact ⟨build_hf_command_eq_spec, rfl⟩

/-- C4: with the `--version` flag, `main` prints the package version (the
fallback token `0.0.0` when the package metadata is missing) and exits with
code 0 immediately: the trace is that single print — no manifest loading and
no cache listing happen — for every manifest path and every state of the
manifest file. -/
theorem C4_version_flag (args : Args) (w : World) (h : args.version = true) :
    main args w = ([Event.printed (w.pkgVersion.getD ("0.0.0"))],
      ExitStatus.ok) ∧
    exitCode (main args w).2 = 0 ∧
    (main args w).1.count Event.loadedManifest = 0 ∧
    (main args w).1.count Event.ranCacheLs = 0 := by
  have hm : main args w =
      ([Event.printed (w.pkgVersion.getD ("0.0.0"))], ExitStatus.ok) := by
    unfold main
    rw [h]
    simp
  refine ⟨hm, ?_, ?_, ?_⟩ <;> rw [hm] <;> rfl

/-- C4 witness: `--version` with a missing manifest file still prints the
version and exits 0 without loading or listing anything. -/
theorem C4_version_flag_witness :
    main ⟨"facehugger.yaml", false, true⟩ (mkWorld ManifestFile.notFound) =
      ([Event.printed ("1.2.3")], ExitStatus.ok) ∧
    exitCode (main ⟨"facehugger.yaml", false, true⟩
      (mkWorld ManifestFile.notFound)).2 = 0 ∧
    (main ⟨"facehugger.yaml", false, true⟩
      (mkWorld ManifestFile.notFound)).1.count Event.loadedManifest = 0 ∧
    (main ⟨"facehugger.yaml", false, true⟩
      (mkWorld ManifestFile.notFound)).1.count Event.ranCacheLs = 0 := by
  simpa using
    C4_version_flag ⟨"facehugger.yaml", false, true⟩
      (mkWorld ManifestFile.notFound) rfl

/-- C7: when the `hf cache ls` subprocess exits non-zero, the cache-listing
helper logs an error naming the exit code and returns the empty sequence
(the run is not aborted: the helper is total); on a zero exit it returns
the captured stdout split into lines. -/
theorem C7_cache_listing (r : SubprocessResult) :
    (r.returncode ≠ 0 →
      (get_cache_listing r).2 = [] ∧
      Event.logged .error ("hf cache ls failed with exit code " ++
        toString r.returncode) ∈ (get_cache_listing r).1) ∧
    (r.returncode = 0 →
      (get_cache_listing r).2 = pySplitlines r.stdout ∧
      ∀ lvl msg, Event.logged lvl msg ∉ (get_cache_listing r).1) := by
  unfold get_cache_listing
  by_cases h : r.returncode = 0 <;> simp [h]

/-- C7 witness: a failing subprocess (exit code 1) yields the empty listing
and the logged error. -/
theorem C7_cache_listing_witness :
    (get_cache_listing ⟨1, "boom"⟩).2 = [] ∧
    Event.logged .error ("hf cache ls failed with exit code " ++
      toString (1 : Int)) ∈ (get_cache_listing ⟨1, "boom"⟩).1 :=
  (C7_cache_listing ⟨1, "boom"⟩).1 (by decide)

/-- C1 counterexample: a manifest whose `models` key is present but bound
to an empty list passes schema validation and loads successfully as a
manifest with zero entries — contradicting both that `models: []` fails
validation and that every validated manifest has a non-empty `models`
sequence. -/
theorem C1_counterexample :
    load_manifest (ManifestFile.parsed (Yaml.map [("models", Yaml.list [])]))
      = Except.ok { models := [] } := rfl

/-- C1 (amended): a manifest whose `models` key is missing fails schema
validation and `main` terminates via `sys.exit` with a non-zero exit code;
but a present-and-empty `models` list passes validation, yielding a
manifest whose `models` sequence is empty. -/
theorem C1_missing_models_fails :
    (∀ (kvs : List (String × Yaml)) (args : Args) (w : World),
      args.version = false →
      w.file = ManifestFile.parsed (Yaml.map kvs) →
      ymLookup kvs ("models") = none →
      main args w = ([Event.loadedManifest],
        ExitStatus.sysExit LoadError.validationFailure) ∧
      exitCode (main args w).2 ≠ 0) ∧
    load_manifest (ManifestFile.parsed (Yaml.map [("models", Yaml.list [])]))
      = Except.ok { models := [] } := by
  constructor
  · intro kvs args w hv hw hm
    have hload : load_manifest (ManifestFile.parsed (Yaml.map kvs)) =
        Except.error LoadError.validationFailure := by
      unfold load_manifest
      by_cases hf : (Yaml.map kvs).falsy
      · simp [hf, @model_validate_no_models [] rfl]
      · simp [hf, model_validate_no_models hm]
    have hmain : main args w = ([Event.loadedManifest],
        ExitStatus.sysExit LoadError.validationFailure) := by
      unfold main
      rw [hv, hw, hload]
      simp
    exact ⟨hmain, by rw [hmain]; decide⟩
  · rfl

/-- C1 witness: a manifest without a `models` key makes the run exit
non-zero after failing validation. -/
theorem C1_missing_models_fails_witness :
    main argsPlain
        (mkWorld (ManifestFile.parsed (Yaml.map [("other_key", Yaml.str ("x"))])))
      = ([Event.loadedManifest],
        ExitStatus.sysExit LoadError.validationFailure) ∧
    exitCode (main argsPlain
        (mkWorld (ManifestFile.parsed
          (Yaml.map [("other_key", Yaml.str ("x"))])))).2 ≠ 0 :=
  C1_missing_models_fails.1 [("other_key", Yaml.str ("x"))] argsPlain
    (mkWorld (ManifestFile.parsed (Yaml.map [("other_key", Yaml.str ("x"))])))
    rfl rfl rfl

/-- C8: for every handled outcome the verifier only logs and returns: a
missing repository or revision produces one error log after the preamble; a
result with mismatches produces the failure header plus one error line per
mismatch carrying path, algorithm, expected and actual digest; a clean
result produces the success summary with the checked count and verified
path. The function is total, so no handled outcome aborts the run. -/
theorem C8_verify_outcomes (repo : String) (rt ref : Option String)
    (msg : String) (res : VerificationResult) :
    (verify_cache repo rt ref (.repoNotFound msg) =
      verifyPreamble repo rt ref ++
        [.logged .error ("Repository " ++ repo ++ " not found: " ++ msg)]) ∧
    (verify_cache repo rt ref (.revisionNotFound msg) =
      verifyPreamble repo rt ref ++
        [.logged .error ("Repository " ++ repo ++ " revision " ++
          pyOptStr ref ++ " not found: " ++ msg)]) ∧
    (res.mismatches ≠ [] →
      verify_cache repo rt ref (.completed res) =
        verifyPreamble repo rt ref ++
          (Event.logged .error ("❌ Repo " ++ repo ++
              " checksum verification failed for the following file(s)")
            :: res.mismatches.map mismatchLog)) ∧
    (res.mismatches = [] →
      verify_cache repo rt ref (.completed res) =
        verifyPreamble repo rt ref ++
          [.logged .info ("✅ Verified " ++ toString res.checked_count ++
            " file(s) for " ++ sq ++ repo ++ sq ++ " (" ++ pyOptStr rt ++
            ") in " ++ res.verified_path)]) := by
  refine ⟨rfl, rfl, ?_, ?_⟩
  · intro h
    unfold verify_cache
    simp [h]
  · intro h
    unfold verify_cache
    simp [h]

/-- C8 witness: one concrete mismatch is logged with its path, algorithm
and both digests, after the preamble, without aborting. -/
theorem C8_verify_outcomes_witness :
    verify_cache ("owner/model") none (some ("main"))
        (.completed ⟨2, "/cache/models",
          [⟨"model.bin", "abc", "def", "sha256"⟩]⟩) =
      verifyPreamble ("owner/model") none (some ("main")) ++
        (Event.logged .error ("❌ Repo " ++ "owner/model" ++
            " checksum verification failed for the following file(s)")
          :: ([⟨"model.bin", "abc", "def", "sha256"⟩] : List Mismatch).map
              mismatchLog) :=
  (C8_verify_outcomes ("owner/model") none (some ("main")) ""
    ⟨2, "/cache/models", [⟨"model.bin", "abc", "def", "sha256"⟩]⟩).2.2.1
    (by decide)

/-- C10: an entry whose `repo` is present but the empty string passes
schema validation (while an absent `repo` key fails it); the entry loop
then skips such an entry with a warning — contributing no rendered command,
no download and no verification, and not consuming the oracle index — and
in the concrete two-entry run the later well-formed entry is still rendered,
downloaded and verified. -/
theorem C10_empty_repo_entry :
    (ModelConfig.model_validate (Yaml.map [("repo", Yaml.str (""))]) =
      some { repo := "", ref := some ("main"), «include» := none,
             exclude := none }) ∧
    (ModelConfig.model_validate (Yaml.map [("ref", Yaml.str ("main"))]) =
      none) ∧
    (∀ (dryRun : Bool) (w : World) (k : Nat) (e : ModelConfig),
      e.repo = "" →
      runEntry dryRun w k e =
        ([Event.logged .warning ("Skipping entry without " ++ sq ++ "repo" ++
          sq ++ " key: " ++ modelConfigRepr e)], k, false)) ∧
    (renderedCount (main argsPlain emptyRepoThenGoodWorld).1 = 1 ∧
     downloadCount (main argsPlain emptyRepoThenGoodWorld).1 = 1 ∧
     verifyCount (main argsPlain emptyRepoThenGoodWorld).1 = 1 ∧
     Event.downloaded ("owner/model") (some ("main")) none none
       ∈ (main argsPlain emptyRepoThenGoodWorld).1) := by
  refine ⟨rfl, rfl, ?_, by decide⟩
  intro dryRun w k e he
  unfold runEntry
  simp [he]

/-- C10 witness: the skip branch at a concrete empty-`repo` entry. -/
theorem C10_empty_repo_entry_witness :
    runEntry false emptyRepoThenGoodWorld 0 { repo := "" } =
      ([Event.logged .warning ("Skipping entry without " ++ sq ++ "repo" ++
        sq ++ " key: " ++ modelConfigRepr { repo := "" })], 0, false) :=
  C10_empty_repo_entry.2.2.1 false emptyRepoThenGoodWorld 0 { repo := "" } rfl

/-- C9: diffing any cache listing against itself yields only context lines
(no reportable change line), the modelled unified diff is empty, and the
entry point's colourised diff section is skipped entirely. The diff is
modelled from the spec since `difflib` is external standard-library code. -/
theorem C9_diff_self_empty (L : List String) :
    diffLines L L = L.map (fun s => ⟨Tag.context, s⟩) ∧
    unified_diff L L = [] ∧ diffSectionEvents L L = [] :=
  ⟨diffLines_self L, unified_diff_self L, diffSectionEvents_self L⟩

theorem passive_get_cache_listing (r : SubprocessResult) :
    ∀ e ∈ (get_cache_listing r).1, passiveEvent e := by
  intro e he
  by_cases hc : r.returncode == 0 <;> simp [get_cache_listing, hc] at he
  · subst he
    rfl
  · rcases he with rfl | rfl <;> rfl

theorem logOnly_colourLine (s : String) : logOnlyEvent (colourLine s) = true := by
  unfold colourLine
  split
  · rfl
  · split <;> rfl

theorem logOnly_passive {e : Event} (h : logOnlyEvent e = true) :
    passiveEvent e = true := by
  cases e <;> simp_all [logOnlyEvent, passiveEvent]

theorem logOnly_diffSection (a b : List String) :
    ∀ e ∈ diffSectionEvents a b, logOnlyEvent e := by
  intro e he
  by_cases hd : String.join (unified_diff a b) == "" <;>
    simp [diffSectionEvents, hd] at he
  rcases he with rfl | ⟨s, _, rfl⟩
  · rfl
  · exact logOnly_colourLine s

theorem passive_cacheStateEvents (lbl : String) (r : SubprocessResult) :
    ∀ e ∈ (cacheStateEvents lbl r).1, passiveEvent e := by
  intro e he
  simp only [cacheStateEvents] at he
  rcases List.mem_append.mp he with h1 | h2
  · rcases List.mem_append.mp h1 with h3 | h4
    · exact passive_get_cache_listing r e h3
    · have h5 := List.mem_singleton.mp h4
      subst h5
      rfl
  · obtain ⟨s, _, rfl⟩ := List.mem_map.mp h2
    rfl

theorem passive_renderedCount_zero {l : List Event}
    (h : ∀ e ∈ l, passiveEvent e) : renderedCount l = 0 := by
  unfold renderedCount
  rw [List.countP_eq_zero]
  intro a ha
  have hp := h a ha
  cases a <;> simp_all [passiveEvent]

theorem passive_downloadCount_zero {l : List Event}
    (h : ∀ e ∈ l, passiveEvent e) : downloadCount l = 0 := by
  unfold downloadCount
  rw [List.countP_eq_zero]
  intro a ha
  have hp := h a ha
  cases a <;> simp_all [passiveEvent]

theorem passive_verifyCount_zero {l : List Event}
    (h : ∀ e ∈ l, passiveEvent e) : verifyCount l = 0 := by
  unfold verifyCount
  rw [List.countP_eq_zero]
  intro a ha
  have hp := h a ha
  cases a <;> simp_all [passiveEvent]

theorem count_ranCacheLs_get_cache_listing (r : SubprocessResult) :
    ((get_cache_listing r).1).count Event.ranCacheLs = 1 := by
  unfold get_cache_listing
  split <;> simp

theorem count_ranCacheLs_logged_map (ls : List String) :
    (ls.map (fun l => Event.logged .info l)).count Event.ranCacheLs = 0 := by
  rw [List.count_eq_zero]
  intro hmem
  simp [List.mem_map] at hmem

theorem count_ranCacheLs_diffSection (a b : List String) :
    (diffSectionEvents a b).count Event.ranCacheLs = 0 := by
  rw [List.count_eq_zero]
  intro hmem
  have hl := logOnly_diffSection a b _ hmem
  simp [logOnlyEvent] at hl

theorem count_ranCacheLs_cacheStateEvents (lbl : String)
    (r : SubprocessResult) :
    ((cacheStateEvents lbl r).1).count Event.ranCacheLs = 1 := by
  unfold cacheStateEvents
  simp [List.count_append, count_ranCacheLs_get_cache_listing,
    count_ranCacheLs_logged_map]

/-- C2 counterexample: with a validated manifest of zero entries, the run
still performs one cache-listing capture (the final one), contradicting
"no cache-listing capture at all". -/
theorem C2_counterexample :
    load_manifest emptyModelsWorld.file = Except.ok { models := [] } ∧
    Event.ranCacheLs ∈ (main argsPlain emptyModelsWorld).1 ∧
    (main argsPlain emptyModelsWorld).1.count Event.ranCacheLs = 1 :=
  ⟨rfl, by decide, by decide⟩

/-- C2 (amended): with a validated manifest of zero entries, `main` logs
the notice right after loading, performs no cache-listing capture before
that notice, and performs exactly one capture in the whole run (the final
capture still happens; only the initial one is skipped). -/
theorem C2_empty_manifest (args : Args) (w : World) (m : FacehuggerManifest)
    (hv : args.version = false) (hl : load_manifest w.file = Except.ok m)
    (hm : m.models = []) :
    (main args w).1.take 2 =
      [Event.loadedManifest,
       Event.logged .info ("No models defined in " ++ args.manifest)] ∧
    (main args w).1.count Event.ranCacheLs = 1 := by
  constructor
  · simp [main, hv, hl, hm]
  · simp [main, hv, hl, hm, List.count_cons, List.count_append,
      count_ranCacheLs_cacheStateEvents, count_ranCacheLs_diffSection]

/-- C2 witness: the amended behaviour at a concrete empty manifest. -/
theorem C2_empty_manifest_witness :
    (main argsPlain emptyModelsWorld).1.take 2 =
      [Event.loadedManifest,
       Event.logged .info ("No models defined in " ++ argsPlain.manifest)] ∧
    (main argsPlain emptyModelsWorld).1.count Event.ranCacheLs = 1 :=
  C2_empty_manifest argsPlain emptyModelsWorld { models := [] } rfl rfl rfl

theorem renderedCount_cons_logged (lvl : LogLevel) (msg : String)
    (l : List Event) :
    renderedCount (Event.logged lvl msg :: l) = renderedCount l := by
  unfold renderedCount
  rw [List.countP_cons]
  simp

theorem downloadCount_cons_logged (lvl : LogLevel) (msg : String)
    (l : List Event) :
    downloadCount (Event.logged lvl msg :: l) = downloadCount l := by
  unfold downloadCount
  rw [List.countP_cons]
  simp

theorem verifyCount_cons_logged (lvl : LogLevel) (msg : String)
    (l : List Event) :
    verifyCount (Event.logged lvl msg :: l) = verifyCount l := by
  unfold verifyCount
  rw [List.countP_cons]
  simp

theorem renderedCount_cons_rendered (c : String) (l : List Event) :
    renderedCount (Event.renderedCommand c :: l) = renderedCount l + 1 := by
  unfold renderedCount
  rw [List.countP_cons]
  simp

theorem downloadCount_cons_rendered (c : String) (l : List Event) :
    downloadCount (Event.renderedCommand c :: l) = downloadCount l := by
  unfold downloadCount
  rw [List.countP_cons]
  simp

theorem verifyCount_cons_rendered (c : String) (l : List Event) :
    verifyCount (Event.renderedCommand c :: l) = verifyCount l := by
  unfold verifyCount
  rw [List.countP_cons]
  simp

theorem runEntries_dry (w : World) :
    ∀ (es : List ModelConfig) (k : Nat),
      (runEntries true w es k).2 = false ∧
      renderedCount (runEntries true w es k).1 =
        (es.filter (fun e => !(e.repo == ""))).length ∧
      downloadCount (runEntries true w es k).1 = 0 ∧
      verifyCount (runEntries true w es k).1 = 0 := by
  intro es
  induction es with
  | nil =>
    intro k
    exact ⟨rfl, rfl, rfl, rfl⟩
  | cons e es ih =>
    intro k
    have ihk := ih k
    by_cases h : e.repo == ""
    · have hstep : runEntries true w (e :: es) k =
          (Event.logged .warning ("Skipping entry without " ++ sq ++ "repo" ++
              sq ++ " key: " ++ modelConfigRepr e) ::
            (runEntries true w es k).1,
           (runEntries true w es k).2) := by
        simp [runEntries, runEntry, h]
      rw [hstep]
      refine ⟨ihk.1, ?_, ?_, ?_⟩
      · rw [renderedCount_cons_logged, ihk.2.1]
        simp [List.filter_cons, h]
      · rw [downloadCount_cons_logged, ihk.2.2.1]
      · rw [verifyCount_cons_logged, ihk.2.2.2]
    · have hstep : runEntries true w (e :: es) k =
          (Event.renderedCommand
              (build_hf_command e.repo e.ref e.«include» e.exclude) ::
            (runEntries true w es k).1,
           (runEntries true w es k).2) := by
        simp [runEntries, runEntry, h]
      rw [hstep]
      refine ⟨ihk.1, ?_, ?_, ?_⟩
      · rw [renderedCount_cons_rendered, ihk.2.1]
        simp [List.filter_cons, h]
      · rw [downloadCount_cons_rendered, ihk.2.2.1]
      · rw [verifyCount_cons_rendered, ihk.2.2.2]

/-- C5 counterexample: under `--dry-run`, a valid one-entry manifest whose
entry has an empty `repo` string gets zero rendered commands, not the one
per manifest entry the claim demands. -/
theorem C5_counterexample :
    load_manifest emptyRepoOnlyWorld.file =
      Except.ok { models := [{ repo := "" }] } ∧
    renderedCount (main argsDry emptyRepoOnlyWorld).1 = 0 ∧
    (0 : Nat) ≠ 1 :=
  ⟨rfl, by decide, by decide⟩

theorem renderedCount_append (a b : List Event) :
    renderedCount (a ++ b) = renderedCount a + renderedCount b := by
  simp [renderedCount, List.countP_append]

theorem downloadCount_append (a b : List Event) :
    downloadCount (a ++ b) = downloadCount a + downloadCount b := by
  simp [downloadCount, List.countP_append]

theorem verifyCount_append (a b : List Event) :
    verifyCount (a ++ b) = verifyCount a + verifyCount b := by
  simp [verifyCount, List.countP_append]

theorem passive_diffSection (a b : List String) :
    ∀ e ∈ diffSectionEvents a b, passiveEvent e :=
  fun e he => logOnly_passive (logOnly_diffSection a b e he)

/-- C5 (amended): under `--dry-run` with any validated manifest, the run
performs zero download operations and zero verification operations, and
logs exactly one rendered equivalent command per manifest entry whose
`repo` is non-empty (entries with an empty `repo` are skipped with a
warning instead). -/
theorem C5_dry_run (args : Args) (w : World) (m : FacehuggerManifest)
    (hv : args.version = false) (hd : args.dry_run = true)
    (hl : load_manifest w.file = Except.ok m) :
    downloadCount (main args w).1 = 0 ∧
    verifyCount (main args w).1 = 0 ∧
    renderedCount (main args w).1 =
      (m.models.filter (fun e => !(e.repo == ""))).length := by
  by_cases hm : m.models.isEmpty
  · have hml : m.models = [] := by simpa using hm
    have hmain : (main args w).1 =
        [Event.loadedManifest,
         Event.logged .info ("No models defined in " ++ args.manifest)] ++
        (cacheStateEvents ("\nFinal cache state:") (w.cacheLs 0)).1 ++
        diffSectionEvents []
          (cacheStateEvents ("\nFinal cache state:") (w.cacheLs 0)).2 := by
      simp [main, hv, hl, hm]
    have hfin := passive_cacheStateEvents ("\nFinal cache state:") (w.cacheLs 0)
    have hds := passive_diffSection []
      (cacheStateEvents ("\nFinal cache state:") (w.cacheLs 0)).2
    have hnr : renderedCount [Event.loadedManifest,
        Event.logged .info ("No models defined in " ++ args.manifest)] = 0 := rfl
    have hnd : downloadCount [Event.loadedManifest,
        Event.logged .info ("No models defined in " ++ args.manifest)] = 0 := rfl
    have hnv : verifyCount [Event.loadedManifest,
        Event.logged .info ("No models defined in " ++ args.manifest)] = 0 := rfl
    refine ⟨?_, ?_, ?_⟩ <;> rw [hmain] <;>
      simp only [renderedCount_append, downloadCount_append,
        verifyCount_append, passive_renderedCount_zero hfin,
        passive_downloadCount_zero hfin, passive_verifyCount_zero hfin,
        passive_renderedCount_zero hds, passive_downloadCount_zero hds,
        passive_verifyCount_zero hds, hnr, hnd, hnv, hml] <;>
      rfl
  · have hdry := runEntries_dry w m.models 0
    have hrun : (runEntries args.dry_run w m.models 0).2 = false := by
      rw [hd]
      exact hdry.1
    have hmain : (main args w).1 =
        [Event.loadedManifest] ++
        (cacheStateEvents ("\nInitial cache state:") (w.cacheLs 0)).1 ++
        (runEntries args.dry_run w m.models 0).1 ++
        (cacheStateEvents ("\nFinal cache state:") (w.cacheLs 1)).1 ++
        diffSectionEvents
          (cacheStateEvents ("\nInitial cache state:") (w.cacheLs 0)).2
          (cacheStateEvents ("\nFinal cache state:") (w.cacheLs 1)).2 := by
      simp [main, hv, hl, hm, hrun]
    rw [hd] at hmain
    have hini := passive_cacheStateEvents ("\nInitial cache state:")
      (w.cacheLs 0)
    have hfin := passive_cacheStateEvents ("\nFinal cache state:") (w.cacheLs 1)
    have hds := passive_diffSection
      (cacheStateEvents ("\nInitial cache state:") (w.cacheLs 0)).2
      (cacheStateEvents ("\nFinal cache state:") (w.cacheLs 1)).2
    have hlr : renderedCount [Event.loadedManifest] = 0 := rfl
    have hld : downloadCount [Event.loadedManifest] = 0 := rfl
    have hlv : verifyCount [Event.loadedManifest] = 0 := rfl
    refine ⟨?_, ?_, ?_⟩ <;> rw [hmain] <;>
      simp only [renderedCount_append, downloadCount_append,
        verifyCount_append, passive_renderedCount_zero hini,
        passive_downloadCount_zero hini, passive_verifyCount_zero hini,
        passive_renderedCount_zero hfin, passive_downloadCount_zero hfin,
        passive_verifyCount_zero hfin, passive_renderedCount_zero hds,
        passive_downloadCount_zero hds, passive_verifyCount_zero hds,
        hlr, hld, hlv, hdry.2.1, hdry.2.2.1, hdry.2.2.2] <;>
      simp

/-- C5 witness: a concrete dry run over a two-entry manifest performs no
download and no verification and renders one command per entry. -/
theorem C5_dry_run_witness :
    downloadCount (main argsDry emptyRepoThenGoodWorld).1 = 0 ∧
    verifyCount (main argsDry emptyRepoThenGoodWorld).1 = 0 ∧
    renderedCount (main argsDry emptyRepoThenGoodWorld).1 =
      (({ models := [{ repo := "" },
          { repo := "owner/model" }] } : FacehuggerManifest).models.filter
        (fun e => !(e.repo == ""))).length :=
  C5_dry_run argsDry emptyRepoThenGoodWorld
    { models := [{ repo := "" }, { repo := "owner/model" }] } rfl rfl rfl

/-- C6: loading a parsed manifest document with well-formed entries yields
a manifest whose `models` sequence has one validated entry per document
entry at the same position (file order is preserved), and every validated
entry whose mapping omits the `ref` key has `ref` equal to `"main"`. -/
theorem C6_order_and_ref_default :
    (∀ (ys : List Yaml) (m : FacehuggerManifest),
      load_manifest (ManifestFile.parsed
        (Yaml.map [("models", Yaml.list ys)])) = Except.ok m →
      m.models.length = ys.length ∧
      ∀ i (hy : i < ys.length) (hm : i < m.models.length),
        ModelConfig.model_validate (ys.get ⟨i, hy⟩) =
          some (m.models.get ⟨i, hm⟩)) ∧
    (∀ (kvs : List (String × Yaml)) (c : ModelConfig),
      ModelConfig.model_validate (Yaml.map kvs) = some c →
      ymLookup kvs ("ref") = none → c.ref = some ("main")) := by
  constructor
  · intro ys m h
    unfold load_manifest at h
    simp only [FacehuggerManifest.model_validate, Yaml.falsy] at h
    simp [ymLookup] at h
    cases hv : validateModels ys with
    | none => rw [hv] at h; simp at h
    | some cs =>
      rw [hv] at h
      simp at h
      rw [← h]
      exact ⟨validateModels_length hv, validateModels_get hv⟩
  · intro kvs c h hr
    exact model_validate_ref_default h hr

/-- C6 witness: the concrete two-entry manifest document (mirroring the
repository's test) loads with entries in file order, one validated entry
per document entry. -/
theorem C6_order_and_ref_default_witness :
    twoEntryManifest.models.length = twoEntryDoc.length ∧
    ∀ i (hy : i < twoEntryDoc.length)
      (hm : i < twoEntryManifest.models.length),
      ModelConfig.model_validate (twoEntryDoc.get ⟨i, hy⟩) =
        some (twoEntryManifest.models.get ⟨i, hm⟩) :=
  C6_order_and_ref_default.1 twoEntryDoc twoEntryManifest rfl

end Facehugger
